import Mathlib

/-!
Shallow embedding of the TUI-testing MCP server (src/server.py) and proofs
about its session engine.

Conventions of the embedding:
* Text (child output, transcripts, screen rows) is modelled as `List Char`;
  caller-facing identifiers and messages stay `String`.
* The global `sessions` dict is an insertion-ordered association list.
* Tool functions return a structured reply (`ToolReply`) recording which
  branch of the Python function produced the returned string, together with
  the updated registry (Python mutates the session objects in place; the
  functional model writes the updated session back).
* The pexpect process is modelled by the fields `sent` (bytes written to the
  child's stdin), `pending` (child output available to a non-blocking read),
  `before` (the pexpect `before` attribute) and `closed`.
* pyte's terminal emulation is not part of the repository; the screen and the
  escape-sequence decoder are modelled from the spec (sections 4.1 and 4.2):
  printable characters, line feed / carriage return / backspace / tab, CSI
  cursor movement and erase, everything unrecognized silently ignored.
-/

/-! ### Python string helpers -/

/-- Whitespace characters stripped by Python's `str.strip()` (ASCII range;
the inputs in this development are ASCII). -/
def pyIsSpace (c : Char) : Bool :=
  c = ' ' || c = '\t' || c = '\n' || c = '\x0d' || c = '\x0b' || c = '\x0c'

/-- Python `str.strip()` on a character list. -/
def pyStrip (cs : List Char) : List Char :=
  ((cs.dropWhile pyIsSpace).reverse.dropWhile pyIsSpace).reverse

/-- Python `str.rstrip()` on a character list. -/
def pyRStrip (cs : List Char) : List Char :=
  (cs.reverse.dropWhile pyIsSpace).reverse

/-- Digit run to a number; `none` if empty or a non-digit occurs. -/
def digitsToNatAux : List Char → Nat → Option Nat
  | [], acc => some acc
  | c :: rest, acc =>
      if '0' ≤ c ∧ c ≤ '9' then digitsToNatAux rest (acc * 10 + (c.toNat - 48))
      else none

/-- Digit run to a number; `none` on the empty list. -/
def digitsToNat? (cs : List Char) : Option Nat :=
  if cs.isEmpty then none else digitsToNatAux cs 0

/-- Python `int(str)`: surrounding whitespace allowed, optional sign, then
decimal digits (digit-group underscores are not modelled; no input in this
development uses them). -/
def parsePyInt (s : String) : Option Int :=
  match pyStrip s.toList with
  | '+' :: ds => (digitsToNat? ds).map Int.ofNat
  | '-' :: ds => (digitsToNat? ds).map (fun n => -(n : Int))
  | ds => (digitsToNat? ds).map Int.ofNat

/-- Split a character list on a separator character, Python
`str.split(sep)` with a single-character separator: adjacent separators
produce empty pieces and the empty input gives one empty piece. -/
def splitOnChar (sep : Char) : List Char → List (List Char)
  | [] => [[]]
  | c :: rest =>
      let r := splitOnChar sep rest
      if c = sep then [] :: r
      else
        match r with
        | g :: gs => (c :: g) :: gs
        | [] => [[c]]

/-- Clamp one bound of a Python slice `s[a:b]` to `0 ≤ i ≤ len`,
with negative indices counted from the end. -/
def pySliceIdx (len : Nat) (i : Int) : Nat :=
  if i < 0 then (max 0 ((len : Int) + i)).toNat else min i.toNat len

/-- Python slice `s[a:b]` (step 1) on a character list. -/
def pySlice (cs : List Char) (a b : Int) : List Char :=
  (cs.take (pySliceIdx cs.length b)).drop (pySliceIdx cs.length a)

/-- Python `range(a, b)` over integers. -/
def intRange (a b : Int) : List Int :=
  (List.range (b - a).toNat).map (fun k => a + (k : Int))

/-! ### The ANSI escape pattern (src/server.py line 23)

The source compiles the regular expression ESC followed by either one
character of the class 0x40-0x5A or 0x5C-0x5F, or a CSI sequence: an open
bracket, then any parameter bytes 0x30-0x3F, then any intermediate bytes
0x20-0x2F, then one final byte 0x40-0x7E.  The three CSI classes are
pairwise disjoint, so the greedy NFA match is the deterministic scan below. -/

/-- Membership in the class `[@-Z\\-_]` of the ANSI pattern. -/
def isAnsiSingleFinal (c : Char) : Bool :=
  (0x40 ≤ c.toNat && c.toNat ≤ 0x5A) || (0x5C ≤ c.toNat && c.toNat ≤ 0x5F)

/-- CSI parameter byte `[0-?]`. -/
def isCsiParam (c : Char) : Bool := 0x30 ≤ c.toNat && c.toNat ≤ 0x3F

/-- CSI intermediate byte, 0x20 to 0x2F. -/
def isCsiInter (c : Char) : Bool := 0x20 ≤ c.toNat && c.toNat ≤ 0x2F

/-- CSI final byte `[@-~]`. -/
def isCsiFinal (c : Char) : Bool := 0x40 ≤ c.toNat && c.toNat ≤ 0x7E

/-- Length of the match of `ANSI_ESCAPE` starting at the head of the list,
or `none` when the pattern does not match there. -/
def ansiMatchLen (cs : List Char) : Option Nat :=
  match cs with
  | e :: rest =>
      if e = '\x1b' then
        match rest with
        | c :: rest2 =>
            if isAnsiSingleFinal c then some 2
            else if c = '[' then
              let afterParams := rest2.dropWhile isCsiParam
              let afterInter := afterParams.dropWhile isCsiInter
              match afterInter with
              | f :: _ =>
                  if isCsiFinal f then
                    some (2 + (rest2.length - afterParams.length)
                            + (afterParams.length - afterInter.length) + 1)
                  else none
              | [] => none
            else none
        | [] => none
      else none
  | [] => none

/-- Fuel-driven body of `re.sub(ANSI_ESCAPE, '', s)`: one left-to-right pass
removing non-overlapping matches.  The fuel is the remaining length, which
suffices because a match consumes at least one character. -/
def ansiSubAux : Nat → List Char → List Char
  | 0, cs => cs
  | _ + 1, [] => []
  | fuel + 1, c :: rest =>
      match ansiMatchLen (c :: rest) with
      | some k => ansiSubAux fuel ((c :: rest).drop k)
      | none => c :: ansiSubAux fuel rest

/-- Python `ANSI_ESCAPE.sub('', s)`. -/
def ansiSub (cs : List Char) : List Char := ansiSubAux cs.length cs

/-- Whether some position of the list starts a match of `ANSI_ESCAPE`;
this is the file's reading of "contains an ANSI escape sequence". -/
def containsAnsiSeq : List Char → Bool
  | [] => false
  | c :: rest => (ansiMatchLen (c :: rest)).isSome || containsAnsiSeq rest

/-! ### Screen buffer and escape-sequence decoder

Modelled from the spec: pyte's `Screen`/`Stream` pair is not code of this
repository, so the grid, cursor and decoder follow the spec's Screen Buffer
and Escape-Sequence Decoder contracts (sections 4.1, 4.2 and 9): a dense
`width x height` grid of characters defaulting to space, a clamped cursor,
print with wrap, scroll on line feed at the last row, CSI cursor moves and
erase, and silent dropping of everything unrecognized. -/

structure Screen where
  columns : Nat
  lines : Nat
  grid : List (List Char)
  cursorX : Nat
  cursorY : Nat
deriving DecidableEq, Repr

/-- Decoder state persisting between `feed` calls. -/
inductive DecState where
  | ground : DecState
  | escape : DecState
  | csi (params : List Char) : DecState
deriving DecidableEq, Repr

/-- Fresh blank screen (negative requested sizes clamp to zero). -/
def mkScreen (w h : Int) : Screen :=
  { columns := w.toNat
  , lines := h.toNat
  , grid := List.replicate h.toNat (List.replicate w.toNat ' ')
  , cursorX := 0
  , cursorY := 0 }

/-- Write one character at a grid position (out of range: no effect). -/
def Screen.setCell (sc : Screen) (r c : Nat) (ch : Char) : Screen :=
  { sc with grid := sc.grid.set r ((sc.grid.getD r []).set c ch) }

/-- Line feed: move down, scrolling one row at the bottom. -/
def Screen.lineFeed (sc : Screen) : Screen :=
  if sc.cursorY + 1 < sc.lines then { sc with cursorY := sc.cursorY + 1 }
  else if sc.lines = 0 then sc
  else { sc with grid := sc.grid.drop 1 ++ [List.replicate sc.columns ' '] }

/-- Print a character at the cursor, wrapping at the line end. -/
def Screen.putChar (sc : Screen) (ch : Char) : Screen :=
  if sc.cursorX < sc.columns then
    let sc2 := sc.setCell sc.cursorY sc.cursorX ch
    { sc2 with cursorX := sc2.cursorX + 1 }
  else
    let sc2 := Screen.lineFeed { sc with cursorX := 0 }
    if sc2.columns = 0 then sc2
    else
      let sc3 := sc2.setCell sc2.cursorY 0 ch
      { sc3 with cursorX := 1 }

/-- Blank the columns `[a, b)` of a row. -/
def blankRange (row : List Char) (a b : Nat) : List Char :=
  row.enum.map (fun p => if a ≤ p.1 ∧ p.1 < b then ' ' else p.2)

/-- Erase in line (CSI K), `m` the Python parameter. -/
def Screen.eraseInLine (sc : Screen) (m : Nat) : Screen :=
  let row := sc.grid.getD sc.cursorY []
  let row' :=
    if m = 0 then blankRange row sc.cursorX sc.columns
    else if m = 1 then blankRange row 0 (sc.cursorX + 1)
    else List.replicate sc.columns ' '
  { sc with grid := sc.grid.set sc.cursorY row' }

/-- Erase in display (CSI J). -/
def Screen.eraseInDisplay (sc : Screen) (m : Nat) : Screen :=
  if m = 0 then
    let sc2 := sc.eraseInLine 0
    let g := sc2.grid.enum.map
      (fun p => if p.1 > sc2.cursorY then List.replicate sc2.columns ' ' else p.2)
    { sc2 with grid := g }
  else if m = 1 then
    let sc2 := sc.eraseInLine 1
    let g := sc2.grid.enum.map
      (fun p => if p.1 < sc2.cursorY then List.replicate sc2.columns ' ' else p.2)
    { sc2 with grid := g }
  else
    { sc with grid := List.replicate sc.lines (List.replicate sc.columns ' ') }

/-- Numeric CSI parameters (missing or malformed pieces default to 0). -/
def csiArgs (ps : List Char) : List Nat :=
  (splitOnChar ';' ps).map (fun g => (digitsToNat? g).getD 0)

/-- Apply a complete CSI sequence; unrecognized finals are ignored. -/
def Screen.csiApply (sc : Screen) (ps : List Char) (final : Char) : Screen :=
  let args := csiArgs ps
  let p1 := max 1 (args.getD 0 0)
  if final = 'H' ∨ final = 'f' then
    let p2 := max 1 (args.getD 1 0)
    { sc with cursorY := min (p1 - 1) (sc.lines - 1)
            , cursorX := min (p2 - 1) (sc.columns - 1) }
  else if final = 'A' then { sc with cursorY := sc.cursorY - p1 }
  else if final = 'B' then { sc with cursorY := min (sc.cursorY + p1) (sc.lines - 1) }
  else if final = 'C' then { sc with cursorX := min (sc.cursorX + p1) (sc.columns - 1) }
  else if final = 'D' then { sc with cursorX := sc.cursorX - p1 }
  else if final = 'J' then sc.eraseInDisplay (args.getD 0 0)
  else if final = 'K' then sc.eraseInLine (args.getD 0 0)
  else sc

/-- Incremental decoder step: one input character. -/
def feedStep : Screen × DecState → Char → Screen × DecState
  | (sc, DecState.ground), c =>
      if c = '\x1b' then (sc, DecState.escape)
      else if c = '\n' then (sc.lineFeed, DecState.ground)
      else if c = '\x0d' then ({ sc with cursorX := 0 }, DecState.ground)
      else if c = '\x08' then ({ sc with cursorX := sc.cursorX - 1 }, DecState.ground)
      else if c = '\t' then
        ({ sc with cursorX := min ((sc.cursorX / 8 + 1) * 8) (sc.columns - 1) },
         DecState.ground)
      else if 0x20 ≤ c.toNat ∧ c.toNat ≠ 0x7f then (sc.putChar c, DecState.ground)
      else (sc, DecState.ground)
  | (sc, DecState.escape), c =>
      if c = '[' then (sc, DecState.csi [])
      else (sc, DecState.ground)
  | (sc, DecState.csi ps), c =>
      if 0x20 ≤ c.toNat ∧ c.toNat ≤ 0x3F then (sc, DecState.csi (ps ++ [c]))
      else if 0x40 ≤ c.toNat ∧ c.toNat ≤ 0x7E then (sc.csiApply ps c, DecState.ground)
      else (sc, DecState.ground)

/-- `Stream.feed`: run the decoder over a chunk of output. -/
def feedAll (st : Screen × DecState) (cs : List Char) : Screen × DecState :=
  cs.foldl feedStep st

/-- Character list of one rendered line with trailing whitespace removed,
then the lines joined by newlines: the value of
`"\n".join(line.rstrip() for line in self.screen.display)`. -/
def joinLines : List (List Char) → List Char
  | [] => []
  | [l] => l
  | l :: ls => l ++ '\n' :: joinLines ls

/-- Rendered display text of the screen. -/
def Screen.displayText (sc : Screen) : List Char :=
  joinLines (sc.grid.map pyRStrip)

/-! ### The session (class ScreenSession, src/server.py lines 26-126) -/

structure ScreenSession where
  /-- Testing mode string fixed at creation ("stream" or "buffer" when the
  caller follows the documentation; the constructor accepts any string). -/
  mode : String
  command : String
  timeoutv : Int
  /-- Requested width (first component of the parsed dimensions). -/
  width : Int
  /-- Requested height (second component of the parsed dimensions). -/
  height : Int
  /-- Bytes written to the child's stdin so far. -/
  sent : List Char
  /-- Child output available to a non-blocking read but not yet consumed. -/
  pending : List Char
  /-- pexpect's `before` attribute: output consumed by the last expect,
  `none` before any blocking wait. -/
  before : Option (List Char)
  screen : Screen
  dstate : DecState
  closed : Bool
deriving DecidableEq, Repr

/-- ScreenSession._update_buffer: in buffer mode, read at most 8192
characters of available output without blocking (an empty read is not an
error) and feed them through the decoder into the screen. -/
def updateBuffer (s : ScreenSession) : ScreenSession :=
  if s.mode ≠ "buffer" then s
  else
    let output := s.pending.take 8192
    if output.isEmpty then s
    else
      let st := feedAll (s.screen, s.dstate) output
      { s with screen := st.1, dstate := st.2, pending := s.pending.drop 8192 }

/-- ScreenSession.send: write the keys to the child's stdin and, in buffer
mode, run a drain-and-decode pass (the 0.1 second settle delay has no
functional content in the model). -/
def ScreenSession.send (s : ScreenSession) (keys : List Char) : ScreenSession :=
  let s2 := { s with sent := s.sent ++ keys }
  if s2.mode = "buffer" then updateBuffer s2 else s2

/-- ScreenSession.get_stream_output: pexpect's `before` (empty when absent),
with the ANSI escape matches removed unless `include_ansi` is set. -/
def ScreenSession.get_stream_output (s : ScreenSession) (include_ansi : Bool) :
    List Char :=
  let output := s.before.getD []
  if include_ansi then output else ansiSub output

/-- ScreenSession.get_buffer_display: drain pending output, then render the
display with each line right-stripped, joined by newlines.  Outside buffer
mode the source returns a fixed explanatory string. -/
def ScreenSession.get_buffer_display (s : ScreenSession) :
    List Char × ScreenSession :=
  if s.mode ≠ "buffer" then
    ("Buffer mode not enabled for this session".toList, s)
  else
    let s2 := updateBuffer s
    (s2.screen.displayText, s2)

/-- ScreenSession.get_buffer_line: one row of the screen (pyte stores rows
sparsely; the dense-grid model returns the full rendered row, which no
claim distinguishes).  Out-of-range rows give the empty string. -/
def ScreenSession.get_buffer_line (s : ScreenSession) (row : Int) :
    List Char × ScreenSession :=
  if s.mode ≠ "buffer" then
    ("Buffer mode not enabled for this session".toList, s)
  else
    let s2 := updateBuffer s
    if 0 ≤ row ∧ row < (s2.screen.lines : Int) then
      (s2.screen.grid.getD row.toNat [], s2)
    else ([], s2)

/-- ScreenSession.get_cursor_position: (row, col) of the cursor, or the
sentinel (-1, -1) outside buffer mode. -/
def ScreenSession.get_cursor_position (s : ScreenSession) :
    (Int × Int) × ScreenSession :=
  if s.mode ≠ "buffer" then ((-1, -1), s)
  else
    let s2 := updateBuffer s
    (((s2.screen.cursorY : Int), (s2.screen.cursorX : Int)), s2)

/-- ScreenSession.get_char_at: the character at a position as a one-element
string, or the empty string out of range or outside buffer mode. -/
def ScreenSession.get_char_at (s : ScreenSession) (row col : Int) :
    List Char × ScreenSession :=
  if s.mode ≠ "buffer" then ([], s)
  else
    let s2 := updateBuffer s
    if 0 ≤ row ∧ row < (s2.screen.lines : Int)
        ∧ 0 ≤ col ∧ col < (s2.screen.columns : Int) then
      ([(s2.screen.grid.getD row.toNat []).getD col.toNat ' '], s2)
    else ([], s2)

/-- ScreenSession.close: close the underlying process. -/
def ScreenSession.close (s : ScreenSession) : ScreenSession :=
  { s with closed := true }

/-- Fresh session as built by ScreenSession.__init__: spawn the process with
the requested dimensions, and in buffer mode create the screen and run one
drain pass (no output has arrived yet, so the pass is a no-op). -/
def mkSession (command : String) (timeout : Int) (w h : Int) (mode : String) :
    ScreenSession :=
  let base : ScreenSession :=
    { mode := mode
    , command := command
    , timeoutv := timeout
    , width := w
    , height := h
    , sent := []
    , pending := []
    , before := none
    , screen := if mode = "buffer" then mkScreen w h else mkScreen 0 0
    , dstate := DecState.ground
    , closed := false }
  if mode = "buffer" then updateBuffer base else base

/-! ### The session registry (the module-level `sessions` dict) -/

/-- Registry of active sessions: insertion-ordered association list with
unique keys, the model of the module-level dict. -/
abbrev Registry := List (String × ScreenSession)

/-- Dictionary lookup (`sessions[sid]` and `sid in sessions`). -/
def regFind : Registry → String → Option ScreenSession
  | [], _ => none
  | (k, v) :: rest, sid => if k = sid then some v else regFind rest sid

/-- Dictionary deletion (`del sessions[sid]`). -/
def regErase : Registry → String → Registry
  | [], _ => []
  | (k, v) :: rest, sid =>
      if k = sid then regErase rest sid else (k, v) :: regErase rest sid

/-- Dictionary assignment (`sessions[sid] = s`): replace in place when the
key exists, append otherwise. -/
def regSet : Registry → String → ScreenSession → Registry
  | [], sid, s => [(sid, s)]
  | (k, v) :: rest, sid, s =>
      if k = sid then (sid, s) :: rest else (k, v) :: regSet rest sid s

/-! ### Tool replies

Each constructor stands for one `return` in src/server.py, carrying the
data interpolated into the returned string. -/

inductive ToolReply where
  /-- The branch "No active session found: sid" shared by every tool. -/
  | notFound (session_id : String) : ToolReply
  /-- The buffer-mode-required branches; the source interpolates the literal
  text "is in stream mode", recorded here as the named mode. -/
  | modeError (namedMode : String) : ToolReply
  /-- launch_tui success. -/
  | launched (session_id : String) : ToolReply
  /-- launch_tui exception branch ("Failed to launch TUI"). -/
  | launchFailed : ToolReply
  /-- send_keys success. -/
  | sentKeys (session_id : String) : ToolReply
  /-- send_ctrl success. -/
  | sentCtrl (key session_id : String) : ToolReply
  /-- capture_screen success with its mode label. -/
  | screenText (mode_label : String) (text : List Char) : ToolReply
  /-- get_line success. -/
  | lineText (text : List Char) : ToolReply
  /-- get_screen_region success. -/
  | regionText (text : List Char) : ToolReply
  /-- get_cursor_position success. -/
  | cursorAt (row col : Int) : ToolReply
  /-- assert_at_position success. -/
  | assertPassed (text : String) : ToolReply
  /-- assert_at_position failure branch, with the stripped actual text. -/
  | assertFailed (expected : String) (found : List Char) : ToolReply
  /-- expect_text: pattern matched. -/
  | foundText (pattern : String) : ToolReply
  /-- expect_text: timeout. -/
  | expectTimeout (pattern : String) : ToolReply
  /-- expect_text: EOF. -/
  | expectEof (pattern : String) : ToolReply
  /-- close_session success. -/
  | closedSession (session_id : String) : ToolReply
  /-- Modelled from the spec: the error SessionClosedError of section 7.
  No code path in src/server.py produces this reply; it exists so that the
  spec's claim about it can be stated. -/
  | sessionClosed : ToolReply
  /-- Generic caught-exception branch of a tool. -/
  | opError (context : String) : ToolReply
deriving DecidableEq, Repr

/-- Result of launch_tui: the reply, the registry afterwards, and the
sessions closed during the call (relaunch closes the replaced session). -/
structure LaunchOut where
  reply : ToolReply
  sessions : Registry
  closedNow : List ScreenSession
deriving DecidableEq, Repr

/-- Python `int(a)` and `int(b)` for both pieces of WIDTHxHEIGHT; `none`
when the string does not split into exactly two integers. -/
def parseDims : Option String → Option (Int × Int)
  | none => some (80, 24)
  | some d =>
      if d = "" then some (80, 24)
      else
        match (splitOnChar 'x' d.toList).map
            (fun cs => parsePyInt (String.mk cs)) with
        | [some w, some h] => some (w, h)
        | _ => none

/-! ### The tools (src/server.py lines 133-562) -/

/-- launch_tui: parse the dimensions, close and drop any session already
registered under the identifier, spawn the process (the parameter `spawnOk`
stands for whether pexpect.spawn raises), and store the new session.  Any
exception is caught and reported as the failure string; no validation of
`mode` or of the sign of the dimensions takes place. -/
def launch_tui (spawnOk : Bool) (command : String) (session_id : String)
    (timeout : Int) (dimensions : Option String) (mode : String)
    (sessions : Registry) : LaunchOut :=
  match parseDims dimensions with
  | none => { reply := ToolReply.launchFailed, sessions := sessions, closedNow := [] }
  | some (w, h) =>
    match regFind sessions session_id with
    | some old =>
        if spawnOk then
          { reply := ToolReply.launched session_id
          , sessions := regSet (regErase sessions session_id) session_id
              (mkSession command timeout w h mode)
          , closedNow := [old.close] }
        else
          { reply := ToolReply.launchFailed
          , sessions := regErase sessions session_id
          , closedNow := [old.close] }
    | none =>
        if spawnOk then
          { reply := ToolReply.launched session_id
          , sessions := regSet sessions session_id
              (mkSession command timeout w h mode)
          , closedNow := [] }
        else
          { reply := ToolReply.launchFailed, sessions := sessions, closedNow := [] }

/-- send_keys: look the session up and write the keys (the extra delay has
no functional content in the model). -/
def send_keys (keys : String) (session_id : String) (sessions : Registry) :
    ToolReply × Registry :=
  match regFind sessions session_id with
  | none => (ToolReply.notFound session_id, sessions)
  | some s =>
      (ToolReply.sentKeys session_id,
       regSet sessions session_id (s.send keys.toList))

/-- capture_screen: auto-detect the view from the session mode unless
`use_buffer` forces one; the buffer view drains before rendering. -/
def capture_screen (session_id : String) (include_ansi : Bool)
    (use_buffer : Option Bool) (sessions : Registry) : ToolReply × Registry :=
  match regFind sessions session_id with
  | none => (ToolReply.notFound session_id, sessions)
  | some s =>
      let ub := use_buffer.getD (s.mode = "buffer")
      if ub ∧ s.mode = "buffer" then
        let r := s.get_buffer_display
        (ToolReply.screenText "buffer" r.1, regSet sessions session_id r.2)
      else
        (ToolReply.screenText "stream" (s.get_stream_output include_ansi),
         sessions)

/-- Possible outcomes of the blocking wait.  Modelled from the spec: the
wait itself is pexpect's `expect` with TIMEOUT and EOF in the pattern list,
which is not code of this repository; section 4.3 specifies exactly the
outcomes match, TimedOut and EndOfOutput. -/
inductive WaitOutcome where
  | matched : WaitOutcome
  | timedOut : WaitOutcome
  | eof : WaitOutcome
deriving DecidableEq, Repr

/-- expect_text: run the blocking wait (its outcome is the explicit
`outcome` argument), refresh the buffer in buffer mode, and report the
outcome. -/
def expect_text (outcome : WaitOutcome) (pattern : String)
    (session_id : String) (sessions : Registry) : ToolReply × Registry :=
  match regFind sessions session_id with
  | none => (ToolReply.notFound session_id, sessions)
  | some s =>
      let s2 := if s.mode = "buffer" then updateBuffer s else s
      let reply :=
        match outcome with
        | WaitOutcome.matched => ToolReply.foundText pattern
        | WaitOutcome.timedOut => ToolReply.expectTimeout pattern
        | WaitOutcome.eof => ToolReply.expectEof pattern
      (reply, regSet sessions session_id s2)

/-- Characters read by the assert_at_position loop: get_char_at at
(row, col + i) for i below n, threading the session through each call. -/
def readChars (row : Int) : Int → Nat → ScreenSession →
    List Char × ScreenSession
  | _, 0, s => ([], s)
  | col, n + 1, s =>
      let r := s.get_char_at row col
      let rest := readChars row (col + 1) n r.2
      (r.1 ++ rest.1, rest.2)

/-- assert_at_position: buffer mode only; reads one character per position
of the expected text and compares with leading and trailing whitespace
stripped from both sides. -/
def assert_at_position (text : String) (row col : Int) (session_id : String)
    (sessions : Registry) : ToolReply × Registry :=
  match regFind sessions session_id with
  | none => (ToolReply.notFound session_id, sessions)
  | some s =>
      if s.mode ≠ "buffer" then (ToolReply.modeError "stream", sessions)
      else
        let r := readChars row col text.toList.length s
        if pyStrip r.1 = pyStrip text.toList then
          (ToolReply.assertPassed text, regSet sessions session_id r.2)
        else
          (ToolReply.assertFailed text (pyStrip r.1),
           regSet sessions session_id r.2)

/-- get_cursor_position tool: buffer mode only. -/
def get_cursor_position (session_id : String) (sessions : Registry) :
    ToolReply × Registry :=
  match regFind sessions session_id with
  | none => (ToolReply.notFound session_id, sessions)
  | some s =>
      if s.mode ≠ "buffer" then (ToolReply.modeError "stream", sessions)
      else
        let r := s.get_cursor_position
        (ToolReply.cursorAt r.1.1 r.1.2, regSet sessions session_id r.2)

/-- Row loop of get_screen_region, threading the session. -/
def regionRows (colStart colEnd : Int) : List Int → ScreenSession →
    List (List Char) × ScreenSession
  | [], s => ([], s)
  | row :: rows, s =>
      let r := s.get_buffer_line row
      let piece := if r.1.isEmpty then [] else pySlice r.1 colStart colEnd
      let rest := regionRows colStart colEnd rows r.2
      (piece :: rest.1, rest.2)

/-- get_screen_region: buffer mode only; `col_end` defaults to the stored
width, rows iterate over `range(row_start, row_end)` and each line is
Python-sliced. -/
def get_screen_region (row_start row_end : Int) (col_start : Int)
    (col_end : Option Int) (session_id : String) (sessions : Registry) :
    ToolReply × Registry :=
  match regFind sessions session_id with
  | none => (ToolReply.notFound session_id, sessions)
  | some s =>
      if s.mode ≠ "buffer" then (ToolReply.modeError "stream", sessions)
      else
        let ce := col_end.getD s.width
        let r := regionRows col_start ce (intRange row_start row_end) s
        (ToolReply.regionText (joinLines r.1), regSet sessions session_id r.2)

/-- get_line tool: buffer mode only. -/
def get_line (row : Int) (session_id : String) (sessions : Registry) :
    ToolReply × Registry :=
  match regFind sessions session_id with
  | none => (ToolReply.notFound session_id, sessions)
  | some s =>
      if s.mode ≠ "buffer" then (ToolReply.modeError "stream", sessions)
      else
        let r := s.get_buffer_line row
        (ToolReply.lineText r.1, regSet sessions session_id r.2)

/-- close_session: close the process and delete the registry entry. -/
def close_session (session_id : String) (sessions : Registry) :
    ToolReply × Registry :=
  match regFind sessions session_id with
  | none => (ToolReply.notFound session_id, sessions)
  | some _ => (ToolReply.closedSession session_id, regErase sessions session_id)

/-- Python `str.lower()` on one character (ASCII range; the tool is
documented for letter keys). -/
def pyLower (c : Char) : Char :=
  if 65 ≤ c.toNat ∧ c.toNat ≤ 90 then Char.ofNat (c.toNat + 32) else c

/-- send_ctrl: `chr(ord(key.lower()) - ord('a') + 1)` written to the child;
`ord` of a non-single-character string and `chr` of an out-of-range value
raise, landing in the caught-exception branch. -/
def send_ctrl (key : String) (session_id : String) (sessions : Registry) :
    ToolReply × Registry :=
  match regFind sessions session_id with
  | none => (ToolReply.notFound session_id, sessions)
  | some s =>
      match key.toList with
      | [c] =>
          let n : Int := ((pyLower c).toNat : Int) - 96
          if 0 ≤ n ∧ n ≤ 0x10FFFF then
            (ToolReply.sentCtrl key session_id,
             regSet sessions session_id (s.send [Char.ofNat n.toNat]))
          else (ToolReply.opError "send_ctrl", sessions)
      | _ => (ToolReply.opError "send_ctrl", sessions)

/-! ### Derived definitions used by the statements -/

/-- The 1-based position of a letter in the alphabet, after lowercasing:
the control-character value the spec assigns to Ctrl plus that letter. -/
def alphaPos (c : Char) : Nat := (pyLower c).toNat - 96

/-- Characters of the screen at (row, col) through (row, col + n - 1), each
as a one-character piece when in bounds and an empty piece otherwise: the
text assert_at_position reads when no output is pending. -/
def readRunPure (sc : Screen) (row : Int) : Int → Nat → List Char
  | _, 0 => []
  | col, n + 1 =>
      (if 0 ≤ row ∧ row < (sc.lines : Int) ∧ 0 ≤ col ∧ col < (sc.columns : Int)
       then [(sc.grid.getD row.toNat []).getD col.toNat ' '] else [])
      ++ readRunPure sc row (col + 1) n

/-! ### Concrete session states for witnesses and counterexamples -/

/-- Freshly launched stream-mode session used as a registry inhabitant. -/
def demoStream : ScreenSession := mkSession "demo" 30 80 24 "stream"

/-- Stream-mode session whose transcript interleaves escapes so that one
removal pass reconstitutes a new escape sequence: ESC, then a complete
color CSI sequence, then a letter in the two-character escape class. -/
def c6CexSession : ScreenSession :=
  { demoStream with before := some ['\x1b', '\x1b', '[', '3', '1', 'm', 'A'] }

/-- Concrete buffer-mode session state with 8193 characters of child output
still undrained: 8192 BEL characters (ignored by the decoder) followed by a
printable character. -/
def c8CexSession : ScreenSession :=
  { mode := "buffer", command := "cex", timeoutv := 30, width := 80, height := 24
  , sent := [], pending := List.replicate 8192 '\x07' ++ ['A'], before := none
  , screen := mkScreen 80 24, dstate := DecState.ground, closed := false }

/-- Small buffer-mode session with two characters of undrained output. -/
def c8WitnessSession : ScreenSession :=
  { mode := "buffer", command := "wit", timeoutv := 30, width := 8, height := 3
  , sent := [], pending := ['h', 'i'], before := none
  , screen := mkScreen 8 3, dstate := DecState.ground, closed := false }

/-- Quiescent 8x3 buffer-mode session showing "hello" on its first row. -/
def c10Session : ScreenSession :=
  { mode := "buffer", command := "wit", timeoutv := 30, width := 8, height := 3
  , sent := [], pending := [], before := none
  , screen := (feedAll (mkScreen 8 3, DecState.ground) ['h', 'e', 'l', 'l', 'o']).1
  , dstate := DecState.ground, closed := false }

/-! ### Helper lemmas -/

theorem regFind_regSet_self (reg : Registry) (sid : String) (s : ScreenSession) :
    regFind (regSet reg sid s) sid = some s := by
  induction reg with
  | nil => simp [regSet, regFind]
  | cons p rest ih =>
      obtain ⟨k, v⟩ := p
      by_cases h : k = sid
      · simp [regSet, regFind, h]
      · simp [regSet, regFind, h, ih]

theorem regFind_regErase_self (reg : Registry) (sid : String) :
    regFind (regErase reg sid) sid = none := by
  induction reg with
  | nil => simp [regErase, regFind]
  | cons p rest ih =>
      obtain ⟨k, v⟩ := p
      by_cases h : k = sid
      · simp [regErase, h, ih]
      · simp [regErase, regFind, h, ih]

theorem updateBuffer_of_pending_nil (s : ScreenSession) (h : s.pending = []) :
    updateBuffer s = s := by
  by_cases hm : s.mode = "buffer"
  · simp [updateBuffer, hm, h]
  · simp [updateBuffer, hm]

theorem updateBuffer_mode (s : ScreenSession) : (updateBuffer s).mode = s.mode := by
  by_cases hm : s.mode = "buffer"
  · by_cases hp : (s.pending.take 8192).isEmpty
    · simp [updateBuffer, hm, hp]
    · simp [updateBuffer, hm, hp]
  · simp [updateBuffer, hm]

theorem updateBuffer_sent (s : ScreenSession) : (updateBuffer s).sent = s.sent := by
  by_cases hm : s.mode = "buffer"
  · by_cases hp : (s.pending.take 8192).isEmpty
    · simp [updateBuffer, hm, hp]
    · simp [updateBuffer, hm, hp]
  · simp [updateBuffer, hm]

theorem updateBuffer_pending_drop (s : ScreenSession) (h : s.mode = "buffer") :
    (updateBuffer s).pending = s.pending.drop 8192 := by
  by_cases hp : (s.pending.take 8192).isEmpty
  · have hnil : s.pending = [] := by
      simp only [List.isEmpty_iff, List.take_eq_nil_iff] at hp
      rcases hp with h1 | h2
      · exact absurd h1 (by decide)
      · exact h2
    simp [updateBuffer, h, hnil]
  · simp [updateBuffer, h, hp]

theorem sendS_sent (s : ScreenSession) (ks : List Char) :
    (s.send ks).sent = s.sent ++ ks := by
  by_cases hm : s.mode = "buffer"
  · simp [ScreenSession.send, hm, updateBuffer_sent]
  · simp [ScreenSession.send, hm]

theorem mkSession_eq (command : String) (timeout : Int) (w h : Int) (mode : String) :
    mkSession command timeout w h mode =
      { mode := mode, command := command, timeoutv := timeout, width := w
      , height := h, sent := [], pending := [], before := none
      , screen := if mode = "buffer" then mkScreen w h else mkScreen 0 0
      , dstate := DecState.ground, closed := false } := by
  by_cases hm : mode = "buffer"
  · simp [mkSession, hm, updateBuffer_of_pending_nil]
  · simp [mkSession, hm]

theorem mkSession_mode (command : String) (timeout : Int) (w h : Int) (mode : String) :
    (mkSession command timeout w h mode).mode = mode := by
  rw [mkSession_eq]

theorem feedStep_bell (sc : Screen) :
    feedStep (sc, DecState.ground) '\x07' = (sc, DecState.ground) := rfl

theorem feedAll_bells (n : Nat) (sc : Screen) :
    feedAll (sc, DecState.ground) (List.replicate n '\x07') = (sc, DecState.ground) := by
  induction n with
  | zero => rfl
  | succ m ih =>
      rw [List.replicate_succ]
      show feedAll (feedStep (sc, DecState.ground) '\x07') (List.replicate m '\x07')
        = (sc, DecState.ground)
      rw [feedStep_bell]
      exact ih

theorem c8Cex_update :
    updateBuffer c8CexSession = { c8CexSession with pending := ['A'] } := by
  have htake : c8CexSession.pending.take 8192 = List.replicate 8192 '\x07' := by
    show (List.replicate 8192 '\x07' ++ ['A']).take 8192 = List.replicate 8192 '\x07'
    rw [List.take_left' (by rw [List.length_replicate])]
  have hdrop : c8CexSession.pending.drop 8192 = ['A'] := by
    show (List.replicate 8192 '\x07' ++ ['A']).drop 8192 = ['A']
    rw [List.drop_left' (by rw [List.length_replicate])]
  have hne : (List.replicate 8192 '\x07').isEmpty = false := by
    rw [List.isEmpty_eq_false_iff_exists_mem]
    refine ⟨'\x07', ?_⟩
    rw [List.mem_replicate]
    exact ⟨by norm_num, rfl⟩
  have hscr : c8CexSession.screen = mkScreen 80 24 := rfl
  have hdst : c8CexSession.dstate = DecState.ground := rfl
  unfold updateBuffer
  rw [if_neg (by decide)]
  simp only [htake, hdrop, hne, hscr, hdst, Bool.false_eq_true, if_false, feedAll_bells]

theorem c8Cex_first :
    ScreenSession.get_buffer_display c8CexSession
      = ((mkScreen 80 24).displayText, { c8CexSession with pending := ['A'] }) := by
  unfold ScreenSession.get_buffer_display
  rw [if_neg (by decide)]
  simp only [c8Cex_update]
  rfl

theorem char_toNat_ofNat (n : Nat) (h : Nat.isValidChar n) :
    (Char.ofNat n).toNat = n := by
  rw [Char.ofNat, dif_pos h]
  rfl

theorem pyLower_letter (c : Char)
    (hletter : (97 ≤ c.toNat ∧ c.toNat ≤ 122) ∨ (65 ≤ c.toNat ∧ c.toNat ≤ 90)) :
    97 ≤ (pyLower c).toNat ∧ (pyLower c).toNat ≤ 122 := by
  rcases hletter with ⟨h1, h2⟩ | ⟨h1, h2⟩
  · rw [pyLower, if_neg (by omega)]
    exact ⟨h1, h2⟩
  · rw [pyLower, if_pos (by omega)]
    rw [char_toNat_ofNat _ (Or.inl (by omega))]
    omega

theorem get_char_at_quiescent (s : ScreenSession) (hmode : s.mode = "buffer")
    (hpend : s.pending = []) (row col : Int) :
    s.get_char_at row col =
      ((if 0 ≤ row ∧ row < (s.screen.lines : Int)
            ∧ 0 ≤ col ∧ col < (s.screen.columns : Int)
        then [(s.screen.grid.getD row.toNat []).getD col.toNat ' '] else []), s) := by
  have hfix : updateBuffer s = s := updateBuffer_of_pending_nil s hpend
  unfold ScreenSession.get_char_at
  rw [if_neg (by simp [hmode])]
  simp only [hfix]
  split <;> rfl

theorem readChars_quiescent (s : ScreenSession) (hmode : s.mode = "buffer")
    (hpend : s.pending = []) (row : Int) (n : Nat) :
    ∀ col : Int, readChars row col n s = (readRunPure s.screen row col n, s) := by
  induction n with
  | zero => intro col; rfl
  | succ m ih =>
      intro col
      show readChars row col (m + 1) s = _
      unfold readChars
      rw [get_char_at_quiescent s hmode hpend row col]
      dsimp only
      rw [ih (col + 1)]
      rfl

/-! ### Claim C1 -/

/-- Claim C1, corrected.  The claim says a launch with mode outside
{stream, buffer} or non-positive width or height fails with
ConfigurationError and stores nothing; launch_tui performs no such
validation.  What holds: the launch fails (with nothing newly stored under
the identifier) exactly when the dimensions string does not parse as two
x-separated integers or the spawn fails; on every other input, including
unknown modes and zero or negative dimensions, a fresh session with the
given mode is stored. -/
theorem c1_launch_validation (spawnOk : Bool) (cmd sid : String) (t : Int)
    (dims : Option String) (mode : String) (reg : Registry) :
    ((launch_tui spawnOk cmd sid t dims mode reg).reply = ToolReply.launchFailed
        ↔ (parseDims dims = none ∨ spawnOk = false))
    ∧ ((launch_tui spawnOk cmd sid t dims mode reg).reply ≠ ToolReply.launchFailed →
        regFind (launch_tui spawnOk cmd sid t dims mode reg).sessions sid
          = some (mkSession cmd t ((parseDims dims).getD (0, 0)).1
              ((parseDims dims).getD (0, 0)).2 mode))
    ∧ ((launch_tui spawnOk cmd sid t dims mode reg).reply = ToolReply.launchFailed →
        ∀ s, regFind (launch_tui spawnOk cmd sid t dims mode reg).sessions sid = some s →
          regFind reg sid = some s) := by
  rcases hp : parseDims dims with _ | ⟨w, h⟩
  · simp [launch_tui, hp]
  · rcases hf : regFind reg sid with _ | old
    · cases spawnOk
      · simp [launch_tui, hp, hf]
      · simp [launch_tui, hp, hf, regFind_regSet_self]
    · cases spawnOk
      · simp [launch_tui, hp, hf, regFind_regErase_self]
      · simp [launch_tui, hp, hf, regFind_regSet_self]

/-- Claim C1, witness: the characterization evaluated at a concrete
successful launch. -/
theorem c1_launch_validation_witness :
    (launch_tui true "prog" "w1" 30 (some "80x24") "stream" []).reply
        = ToolReply.launchFailed
      ↔ (parseDims (some "80x24") = none ∨ true = false) :=
  (c1_launch_validation true "prog" "w1" 30 (some "80x24") "stream" []).1

/-- Claim C1, counterexample: a launch with the unknown mode "bogus" and a
launch with width 0 both succeed and store a session, where the claim says
they fail with ConfigurationError and store nothing. -/
theorem c1_launch_validation_counterexample :
    ((launch_tui true "prog" "s1" 30 (some "80x24") "bogus" []).reply
        = ToolReply.launched "s1"
      ∧ (regFind (launch_tui true "prog" "s1" 30 (some "80x24") "bogus" []).sessions
          "s1").map ScreenSession.mode = some "bogus")
    ∧ ((launch_tui true "prog" "s1" 30 (some "0x24") "stream" []).reply
        = ToolReply.launched "s1"
      ∧ (regFind (launch_tui true "prog" "s1" 30 (some "0x24") "stream" []).sessions
          "s1").map ScreenSession.mode = some "stream") := by decide

/-! ### Claim C2 -/

/-- Claim C2, confirmed: relaunching an identifier that maps to a live
session is not an error; the old session is closed (it is the session the
call closed) and a fresh session is stored under the same identifier. -/
theorem c2_relaunch_replaces (cmd sid : String) (t : Int) (dims : Option String)
    (mode : String) (reg : Registry) (old : ScreenSession) (w h : Int)
    (hold : regFind reg sid = some old) (hdims : parseDims dims = some (w, h)) :
    (launch_tui true cmd sid t dims mode reg).reply = ToolReply.launched sid
    ∧ (launch_tui true cmd sid t dims mode reg).closedNow = [old.close]
    ∧ regFind (launch_tui true cmd sid t dims mode reg).sessions sid
        = some (mkSession cmd t w h mode) := by
  simp [launch_tui, hdims, hold, regFind_regSet_self]

/-- Claim C2, witness: relaunch over a live stream session. -/
theorem c2_relaunch_replaces_witness :
    (launch_tui true "cmd2" "s1" 30 (some "80x24") "buffer"
        [("s1", demoStream)]).reply = ToolReply.launched "s1"
    ∧ (launch_tui true "cmd2" "s1" 30 (some "80x24") "buffer"
        [("s1", demoStream)]).closedNow = [demoStream.close]
    ∧ regFind (launch_tui true "cmd2" "s1" 30 (some "80x24") "buffer"
        [("s1", demoStream)]).sessions "s1"
        = some (mkSession "cmd2" 30 80 24 "buffer") :=
  c2_relaunch_replaces "cmd2" "s1" 30 (some "80x24") "buffer" [("s1", demoStream)]
    demoStream 80 24 (by decide) (by decide)

/-! ### Claim C3 -/

/-- Claim C3, confirmed: on a stream-mode session, each of the buffer-only
operations cursorPosition, line, region and assertAtPosition returns the
mode-error branch naming the session's actual mode ("stream") and leaves
both the registry and the session untouched. -/
theorem c3_buffer_only_mode_error (sid : String) (reg : Registry)
    (s : ScreenSession) (hfind : regFind reg sid = some s)
    (hmode : s.mode = "stream") :
    get_cursor_position sid reg = (ToolReply.modeError s.mode, reg)
    ∧ (∀ row : Int, get_line row sid reg = (ToolReply.modeError s.mode, reg))
    ∧ (∀ rs re cs : Int, ∀ ce : Option Int,
        get_screen_region rs re cs ce sid reg = (ToolReply.modeError s.mode, reg))
    ∧ (∀ text : String, ∀ row col : Int,
        assert_at_position text row col sid reg
          = (ToolReply.modeError s.mode, reg)) := by
  have hne : s.mode ≠ "buffer" := by rw [hmode]; decide
  refine ⟨?_, ?_, ?_, ?_⟩
  · simp [get_cursor_position, hfind, hne, hmode]
  · intro row
    simp [get_line, hfind, hne, hmode]
  · intro rs re cs ce
    simp [get_screen_region, hfind, hne, hmode]
  · intro text row col
    simp [assert_at_position, hfind, hne, hmode]

/-- Claim C3, witness: cursorPosition on a concrete stream session. -/
theorem c3_buffer_only_mode_error_witness :
    get_cursor_position "s1" [("s1", demoStream)]
      = (ToolReply.modeError demoStream.mode, [("s1", demoStream)]) :=
  (c3_buffer_only_mode_error "s1" [("s1", demoStream)] demoStream
    (by decide) (by decide)).1

/-! ### Claim C4 -/

/-- Claim C4, corrected.  The claim says operations after a successful close
fail with SessionClosedError; the implementation deletes the registry entry
on close, so every subsequent operation on that identifier takes the
session-not-found branch (NotFoundError), and no code path produces a
SessionClosedError. -/
theorem c4_post_close_not_found (sid : String) (reg : Registry)
    (s : ScreenSession) (hfind : regFind reg sid = some s) :
    (close_session sid reg).1 = ToolReply.closedSession sid
    ∧ (∀ keys : String,
        (send_keys keys sid (close_session sid reg).2).1 = ToolReply.notFound sid)
    ∧ (∀ ia : Bool, ∀ ub : Option Bool,
        (capture_screen sid ia ub (close_session sid reg).2).1
          = ToolReply.notFound sid)
    ∧ (∀ row : Int,
        (get_line row sid (close_session sid reg).2).1 = ToolReply.notFound sid)
    ∧ (∀ o : WaitOutcome, ∀ p : String,
        (expect_text o p sid (close_session sid reg).2).1
          = ToolReply.notFound sid) := by
  have hclose : close_session sid reg
      = (ToolReply.closedSession sid, regErase reg sid) := by
    simp [close_session, hfind]
  have hgone : regFind (regErase reg sid) sid = none := regFind_regErase_self reg sid
  rw [hclose]
  refine ⟨rfl, ?_, ?_, ?_, ?_⟩
  · intro keys
    simp [send_keys, hgone]
  · intro ia ub
    simp [capture_screen, hgone]
  · intro row
    simp [get_line, hgone]
  · intro o p
    simp [expect_text, hgone]

/-- Claim C4, witness: close then sendKeys on a concrete session. -/
theorem c4_post_close_not_found_witness :
    (close_session "s1" [("s1", demoStream)]).1 = ToolReply.closedSession "s1" :=
  (c4_post_close_not_found "s1" [("s1", demoStream)] demoStream (by decide)).1

/-- Claim C4, counterexample: after closing the concrete session "s1",
sendKeys on it returns the not-found branch, which is not the spec's
SessionClosedError. -/
theorem c4_post_close_counterexample :
    (send_keys "x" "s1" (close_session "s1" [("s1", demoStream)]).2).1
        = ToolReply.notFound "s1"
    ∧ ToolReply.notFound "s1" ≠ ToolReply.sessionClosed := by decide

/-! ### Claim C5 -/

/-- Claim C5, confirmed: closeSession on an identifier absent from the
registry returns the not-found branch (NotFoundError) with the registry
unchanged, and a subsequent launch with that identifier succeeds, stores a
fresh session, and closes nothing. -/
theorem c5_close_missing_then_relaunch (sid cmd mode : String) (t : Int)
    (reg : Registry) (dims : Option String) (w h : Int)
    (habs : regFind reg sid = none) (hdims : parseDims dims = some (w, h)) :
    close_session sid reg = (ToolReply.notFound sid, reg)
    ∧ (launch_tui true cmd sid t dims mode reg).reply = ToolReply.launched sid
    ∧ regFind (launch_tui true cmd sid t dims mode reg).sessions sid
        = some (mkSession cmd t w h mode)
    ∧ (launch_tui true cmd sid t dims mode reg).closedNow = [] := by
  refine ⟨by simp [close_session, habs], ?_, ?_, ?_⟩
  · simp [launch_tui, hdims, habs]
  · simp [launch_tui, hdims, habs, regFind_regSet_self]
  · simp [launch_tui, hdims, habs]

/-- Claim C5, witness: the scenario on the empty registry. -/
theorem c5_close_missing_then_relaunch_witness :
    close_session "ghost" [] = (ToolReply.notFound "ghost", [])
    ∧ (launch_tui true "cmd5" "ghost" 30 (some "80x24") "stream" []).reply
        = ToolReply.launched "ghost"
    ∧ regFind (launch_tui true "cmd5" "ghost" 30 (some "80x24") "stream"
        []).sessions "ghost" = some (mkSession "cmd5" 30 80 24 "stream")
    ∧ (launch_tui true "cmd5" "ghost" 30 (some "80x24") "stream" []).closedNow
        = [] :=
  c5_close_missing_then_relaunch "ghost" "cmd5" "stream" 30 [] (some "80x24")
    80 24 rfl (by decide)

/-! ### Claim C6 -/

/-- Claim C6, corrected.  With includeControlCodes set the transcript is
returned unmodified; unset, the capture removes the non-overlapping
left-to-right matches of the source's ANSI escape pattern in a single
substitution pass (illustrated on a clear-screen-plus-text transcript).
The claim's stronger reading, that the result contains no ANSI escape
sequence at all, fails: see the counterexample. -/
theorem c6_capture_stream_strip (s : ScreenSession) :
    ScreenSession.get_stream_output s true = s.before.getD []
    ∧ ScreenSession.get_stream_output s false = ansiSub (s.before.getD [])
    ∧ ansiSub ['\x1b', '[', '2', 'J', 'H', 'i'] = ['H', 'i'] :=
  ⟨rfl, rfl, by decide⟩

/-- Claim C6, witness: the characterization at a concrete session. -/
theorem c6_capture_stream_strip_witness :
    ScreenSession.get_stream_output demoStream true = demoStream.before.getD []
    ∧ ScreenSession.get_stream_output demoStream false
        = ansiSub (demoStream.before.getD [])
    ∧ ansiSub ['\x1b', '[', '2', 'J', 'H', 'i'] = ['H', 'i'] :=
  c6_capture_stream_strip demoStream

/-- Claim C6, counterexample: for the transcript ESC ESC [ 3 1 m A, the
capture with includeControlCodes unset returns ESC A, which still contains
a match of the ANSI escape pattern, so not all escape sequences are
removed (the substitution is a single pass, and adjacent removals can
reconstitute a sequence). -/
theorem c6_capture_stream_counterexample :
    ScreenSession.get_stream_output c6CexSession false = ['\x1b', 'A']
    ∧ containsAnsiSeq (ScreenSession.get_stream_output c6CexSession false)
        = true := by decide

/-! ### Claim C7 -/

/-- Claim C7, confirmed: for a single-letter key (either case), send_ctrl
writes to the child exactly one character, whose code point is the letter's
1-based position in the alphabet (between 1 and 26). -/
theorem c7_send_ctrl_letter (key sid : String) (reg : Registry)
    (s : ScreenSession) (c : Char) (hfind : regFind reg sid = some s)
    (hkey : key.toList = [c])
    (hletter : (97 ≤ c.toNat ∧ c.toNat ≤ 122) ∨ (65 ≤ c.toNat ∧ c.toNat ≤ 90)) :
    send_ctrl key sid reg
      = (ToolReply.sentCtrl key sid,
         regSet reg sid (s.send [Char.ofNat (alphaPos c)]))
    ∧ (s.send [Char.ofNat (alphaPos c)]).sent = s.sent ++ [Char.ofNat (alphaPos c)]
    ∧ (Char.ofNat (alphaPos c)).toNat = alphaPos c
    ∧ 1 ≤ alphaPos c ∧ alphaPos c ≤ 26 := by
  have hlow := pyLower_letter c hletter
  have hpos : 1 ≤ alphaPos c ∧ alphaPos c ≤ 26 := by
    unfold alphaPos
    omega
  have hvalid : Nat.isValidChar (alphaPos c) := Or.inl (by unfold alphaPos; omega)
  have hn : (((pyLower c).toNat : Int) - 96).toNat = alphaPos c := by
    unfold alphaPos
    omega
  refine ⟨?_, sendS_sent s _, char_toNat_ofNat _ hvalid, hpos⟩
  unfold send_ctrl
  rw [hfind]
  simp only [hkey]
  rw [if_pos (by omega), hn]

/-- Claim C7, witness: Ctrl plus the letter c writes the byte 0x03. -/
theorem c7_send_ctrl_letter_witness :
    send_ctrl "c" "s1" [("s1", demoStream)]
      = (ToolReply.sentCtrl "c" "s1",
         regSet [("s1", demoStream)] "s1" (demoStream.send [Char.ofNat (alphaPos 'c')]))
    ∧ (Char.ofNat (alphaPos 'c')).toNat = 3 := by
  have h := c7_send_ctrl_letter "c" "s1" [("s1", demoStream)] demoStream 'c'
    (by decide) (by decide) (Or.inl (by decide))
  exact ⟨h.1, h.2.2.1.trans (by decide)⟩

/-! ### Claim C8 -/

/-- Claim C8, corrected.  Two captureBuffer calls with no output or input
between them return identical text provided at most 8192 characters of
child output are undrained at the first call, so that its single bounded
read drains everything; the counterexample shows the bound is necessary. -/
theorem c8_capture_idempotent (s : ScreenSession) (hmode : s.mode = "buffer")
    (hlen : s.pending.length ≤ 8192) :
    (ScreenSession.get_buffer_display s).1
      = (ScreenSession.get_buffer_display
          (ScreenSession.get_buffer_display s).2).1 := by
  have hnotp : ¬ s.mode ≠ "buffer" := by simp [hmode]
  have hfirst : ScreenSession.get_buffer_display s
      = ((updateBuffer s).screen.displayText, updateBuffer s) := by
    unfold ScreenSession.get_buffer_display
    rw [if_neg hnotp]
  have hpend : (updateBuffer s).pending = [] := by
    rw [updateBuffer_pending_drop s hmode]
    exact List.drop_eq_nil_of_le hlen
  have hfix : updateBuffer (updateBuffer s) = updateBuffer s :=
    updateBuffer_of_pending_nil _ hpend
  have hmode2 : ¬ (updateBuffer s).mode ≠ "buffer" := by
    rw [updateBuffer_mode]
    exact hnotp
  rw [hfirst]
  show (updateBuffer s).screen.displayText
    = (ScreenSession.get_buffer_display (updateBuffer s)).1
  unfold ScreenSession.get_buffer_display
  rw [if_neg hmode2, hfix]

/-- Claim C8, witness: two captures on a session with two pending
characters agree. -/
theorem c8_capture_idempotent_witness :
    (ScreenSession.get_buffer_display c8WitnessSession).1
      = (ScreenSession.get_buffer_display
          (ScreenSession.get_buffer_display c8WitnessSession).2).1 :=
  c8_capture_idempotent c8WitnessSession (by decide) (by decide)

/-- Claim C8, counterexample: with 8193 characters undrained (8192 BELs
then a printable A), the first capture drains only 8192 characters and
shows a blank screen; the second drains the A and shows it, so the two
captures differ although no output or input intervened. -/
theorem c8_capture_counterexample :
    (ScreenSession.get_buffer_display c8CexSession).1
      ≠ (ScreenSession.get_buffer_display
          (ScreenSession.get_buffer_display c8CexSession).2).1 := by
  rw [c8Cex_first]
  decide

/-! ### Claim C9 -/

/-- Claim C9, confirmed: for a registered session, expect_text reports
exactly the outcome of the blocking wait, and the wait has exactly the
three outcomes matched, timed out and end of output (the reason field of
the result records that the wait primitive itself is modelled from the
spec's Process Channel contract). -/
theorem c9_expect_outcomes (p sid : String) (reg : Registry)
    (s : ScreenSession) (hfind : regFind reg sid = some s) :
    (expect_text WaitOutcome.matched p sid reg).1 = ToolReply.foundText p
    ∧ (expect_text WaitOutcome.timedOut p sid reg).1 = ToolReply.expectTimeout p
    ∧ (expect_text WaitOutcome.eof p sid reg).1 = ToolReply.expectEof p
    ∧ (∀ o : WaitOutcome,
        (expect_text o p sid reg).1 = ToolReply.foundText p
        ∨ (expect_text o p sid reg).1 = ToolReply.expectTimeout p
        ∨ (expect_text o p sid reg).1 = ToolReply.expectEof p) := by
  refine ⟨by simp [expect_text, hfind], by simp [expect_text, hfind],
    by simp [expect_text, hfind], ?_⟩
  intro o
  cases o
  · exact Or.inl (by simp [expect_text, hfind])
  · exact Or.inr (Or.inl (by simp [expect_text, hfind]))
  · exact Or.inr (Or.inr (by simp [expect_text, hfind]))

/-- Claim C9, witness: a matched wait on a concrete session. -/
theorem c9_expect_outcomes_witness :
    (expect_text WaitOutcome.matched "hello" "s1" [("s1", demoStream)]).1
      = ToolReply.foundText "hello" :=
  (c9_expect_outcomes "hello" "s1" [("s1", demoStream)] demoStream (by decide)).1

/-! ### Claim C10 -/

/-- Claim C10, confirmed: on a quiescent buffer-mode session,
assertAtPosition passes exactly when the characters read at (row, col)
through (row, col + len - 1), stripped of leading and trailing whitespace,
equal the expected text stripped the same way; in particular texts
differing only in surrounding whitespace are asserted equal. -/
theorem c10_assert_position_strip (text sid : String) (row col : Int)
    (reg : Registry) (s : ScreenSession) (hfind : regFind reg sid = some s)
    (hmode : s.mode = "buffer") (hpend : s.pending = []) :
    (assert_at_position text row col sid reg).1 = ToolReply.assertPassed text
      ↔ pyStrip (readRunPure s.screen row col text.toList.length)
          = pyStrip text.toList := by
  have hread := readChars_quiescent s hmode hpend row text.length col
  by_cases hc : pyStrip (readRunPure s.screen row col text.length)
      = pyStrip text.data
  · simp [assert_at_position, hfind, hmode, hread, hc]
  · simp [assert_at_position, hfind, hmode, hread, hc]

/-- Claim C10, witness: on a screen showing hello, asserting the text
space-hello-space (which differs from the screen only in surrounding
whitespace) at (0, 0) passes. -/
theorem c10_assert_position_strip_witness :
    (assert_at_position " hello " 0 0 "s1" [("s1", c10Session)]).1
      = ToolReply.assertPassed " hello " :=
  (c10_assert_position_strip " hello " "s1" 0 0 [("s1", c10Session)] c10Session
    (by decide) (by decide) (by decide)).mpr (by decide)
